import Mathlib

/-!
Formal model of the SAR (search-and-rescue) prediction backend.

The Python source is shallowly embedded: floats become rationals, the
stochastic draws consumed by `random.*` become explicit tape arguments,
and the transcendental functions of `math` become fields of an abstract
operation record.  Every definition mirrors the corresponding Python
function statement by statement.
-/

namespace SAR

/-- Truncation toward zero: the behaviour of Python's `int()` on a float. -/
def pyInt (q : ℚ) : ℤ := if 0 ≤ q then ⌊q⌋ else ⌈q⌉

theorem pyInt_of_nonneg {q : ℚ} (h : 0 ≤ q) : pyInt q = ⌊q⌋ := by
  simp [pyInt, h]

theorem pyInt_sub_frac (n : ℕ) (z : ℚ) (hn : 1 ≤ (n : ℚ)) (h0 : 0 < z) (h1 : z ≤ 1) :
    pyInt ((n : ℚ) - z) = (n : ℤ) - 1 := by
  have hnn : 0 ≤ (n : ℚ) - z := by linarith
  rw [pyInt, if_pos hnn, Int.floor_eq_iff]
  push_cast
  constructor <;> linarith

theorem pyInt_add_frac (n : ℕ) (z : ℚ) (h0 : 0 ≤ z) (h1 : z < 1) :
    pyInt ((n : ℚ) + z) = (n : ℤ) := by
  have hnn : 0 ≤ (n : ℚ) + z := by positivity
  rw [pyInt, if_pos hnn, Int.floor_eq_iff]
  push_cast
  constructor <;> linarith

/-! ## Data models (`app/simulation/models.py`) -/

/-- `Gender` enum from `models.py`. -/
inductive Gender
  | male
  | female
  | other
  | unknown
deriving DecidableEq, Repr

/-- `HikerProfile` from `models.py`; `age` is `Optional[int]`. -/
structure HikerProfile where
  age : Option ℤ := none
  gender : Gender := Gender.unknown
  skill_level : ℤ := 3
deriving DecidableEq, Repr

/-- Embeds `HikerProfile.speed_factor` (models.py lines 82-99).
Python's `if self.age:` is false for `None` and for `0`, and the
`elif self.age > 70` arm sits below `elif self.age > 60`, so it is kept
here exactly as written (it is unreachable). -/
def HikerProfile.speed_factor (p : HikerProfile) : ℚ :=
  let factor : ℚ := 1
  let factor :=
    match p.age with
    | none => factor
    | some a =>
      if a = 0 then factor
      else if a < 18 then factor * 0.8
      else if a > 60 then factor * 0.7
      else if a > 70 then factor * 0.5
      else factor
  factor * (0.6 + (p.skill_level : ℚ) * 0.1)

/-- Embeds `HikerProfile.direction_randomness` (models.py lines 101-105). -/
def HikerProfile.direction_randomness (p : HikerProfile) : ℚ :=
  1 - ((p.skill_level : ℚ) - 1) * 0.2

/-- The age scale the claim C1 ascribes to the code, written from the
spec's words: 0.8 below 18, 0.7 on [60,70], 0.5 above 70, else 1. -/
def age_scale_spec (age : Option ℤ) : ℚ :=
  match age with
  | none => 1
  | some a =>
    if a < 18 then 0.8
    else if 60 ≤ a ∧ a ≤ 70 then 0.7
    else if a > 70 then 0.5
    else 1

/-- The age scale the code actually computes: 0.8 for a present, nonzero
age below 18; 0.7 for age above 60 (the 0.5 arm is unreachable); 1
otherwise, in particular for an absent or zero age. -/
def age_scale_code (age : Option ℤ) : ℚ :=
  match age with
  | none => 1
  | some a =>
    if a = 0 then 1
    else if a < 18 then 0.8
    else if a > 60 then 0.7
    else 1

/-- Claim C1, counterexample: for a 75-year-old of skill 3 the code
multiplies by 0.7 (the `> 60` arm), not by the 0.5 the claim requires,
so `speed_factor` is 0.63 rather than `(0.6 + 0.1·3)·0.5 = 0.45`. -/
theorem C1_counterexample :
    (HikerProfile.speed_factor { age := some 75, skill_level := 3 }) ≠
      (0.6 + 0.1 * 3) * age_scale_spec (some 75) := by
  norm_num [HikerProfile.speed_factor, age_scale_spec]

/-- Claim C1 (amended): `speed_factor` equals `(0.6 + 0.1·skill)` times
the age scale the code computes: 0.8 if the age is present, nonzero and
below 18; 0.7 if the age is above 60 (including above 70, whose 0.5 arm
is dead code); 1.0 otherwise, including when the age is absent or zero. -/
theorem C1_speed_factor (p : HikerProfile) :
    p.speed_factor = (0.6 + 0.1 * (p.skill_level : ℚ)) * age_scale_code p.age := by
  unfold HikerProfile.speed_factor age_scale_code
  cases p.age with
  | none => ring
  | some a =>
    by_cases h0 : a = 0
    · simp only [h0, if_pos rfl, if_true]
      norm_num
      ring
    · by_cases h18 : a < 18
      · simp only [h0, h18, if_false, if_true, if_neg, if_pos]
        ring
      · by_cases h60 : a > 60
        · simp only [h0, h18, h60, if_false, if_true, if_neg, if_pos]
          ring
        · have h70 : ¬ a > 70 := by omega
          simp only [h0, h18, h60, h70, if_false, if_neg]
          ring

/-- `WeatherConditions` from `models.py`. -/
structure WeatherConditions where
  temperature_c : ℚ := 15
  precipitation_mm : ℚ := 0
  wind_speed_ms : ℚ := 0
deriving DecidableEq, Repr

/-- Embeds `WeatherConditions.movement_penalty` (models.py lines 123-146).
The `elif self.temperature_c < -10` arm is kept below the `< 0` arm
exactly as in the source, where it is unreachable. -/
def WeatherConditions.movement_penalty (w : WeatherConditions) : ℚ :=
  let penalty : ℚ := 0
  let penalty :=
    if w.temperature_c < 0 then penalty + 0.2
    else if w.temperature_c < -10 then penalty + 0.4
    else penalty
  let penalty := if w.temperature_c > 30 then penalty + 0.2 else penalty
  let penalty :=
    if w.precipitation_mm > 0 then penalty + min 0.3 (w.precipitation_mm * 0.05)
    else penalty
  let penalty := if w.wind_speed_ms > 10 then penalty + 0.1 else penalty
  min 0.8 penalty

/-- Claim C2: at −20 °C (no rain, no wind) the code yields a movement
penalty of 0.2, not the 0.4 the spec's "worse cold bound" demands: the
`temperature_c < 0` branch shadows the `< -10` branch, which is dead. -/
theorem C2_code_eval :
    WeatherConditions.movement_penalty
      { temperature_c := -20, precipitation_mm := 0, wind_speed_ms := 0 } = 0.2 := by
  norm_num [WeatherConditions.movement_penalty, min_def]

/-! ## Terrain model and sampler
(`app/terrain/terrain_pipeline.py`, `app/terrain/terrain_sampler.py`)

The sampler's precomputed factors and its queries are attached to the
terrain record directly; `elevation_grid r c` is the raster lookup
`elevation[r, c]`. -/

/-- `TerrainModel` (terrain_pipeline.py lines 28-41): raster plus
bounds `(west, south, east, north)` and shape `(rows, cols)`. -/
structure TerrainModel where
  rows : ℕ
  cols : ℕ
  elevation_grid : ℕ → ℕ → ℚ
  west : ℚ
  south : ℚ
  east : ℚ
  north : ℚ

/-- The NODATA sentinel of the DEM loader. -/
def NODATA : ℚ := -9999

/-- `self._lon_per_col` from `TerrainSampler.__init__`. -/
def TerrainModel.lon_per_col (t : TerrainModel) : ℚ := (t.east - t.west) / t.cols

/-- `self._lat_per_row` from `TerrainSampler.__init__`. -/
def TerrainModel.lat_per_row (t : TerrainModel) : ℚ := (t.north - t.south) / t.rows

/-- Embeds `TerrainSampler._is_in_bounds` (terrain_sampler.py lines 77-80). -/
def TerrainModel.is_in_bounds (t : TerrainModel) (lat lon : ℚ) : Bool :=
  decide (t.south ≤ lat ∧ lat ≤ t.north ∧ t.west ≤ lon ∧ lon ≤ t.east)

/-- Embeds `TerrainSampler._latlon_to_rowcol` (terrain_sampler.py lines
53-75): fractional `(row, col)` indices. -/
def TerrainModel.latlon_to_rowcol (t : TerrainModel) (lat lon : ℚ) : ℚ × ℚ :=
  ((t.north - lat) / t.lat_per_row, (lon - t.west) / t.lon_per_col)

/-- Embeds `TerrainSampler.elevation` with `interpolate=True`
(terrain_sampler.py lines 82-132): bilinear interpolation of the four
neighbouring raster cells, `none` only when out of bounds.  `r1`/`c1`
are taken from the *unclamped* `r0`/`c0`, and the fractional parts from
the clamped ones, exactly as in the source. -/
def TerrainModel.elevation (t : TerrainModel) (lat lon : ℚ) : Option ℚ :=
  if ¬ t.is_in_bounds lat lon then none
  else
    let rc := t.latlon_to_rowcol lat lon
    let row := rc.1
    let col := rc.2
    let r0 : ℤ := pyInt row
    let c0 : ℤ := pyInt col
    let r1 : ℤ := min (r0 + 1) ((t.rows : ℤ) - 1)
    let c1 : ℤ := min (c0 + 1) ((t.cols : ℤ) - 1)
    let r0 : ℤ := max 0 (min r0 ((t.rows : ℤ) - 1))
    let c0 : ℤ := max 0 (min c0 ((t.cols : ℤ) - 1))
    let dr := row - (r0 : ℚ)
    let dc := col - (c0 : ℚ)
    let v00 := t.elevation_grid r0.toNat c0.toNat
    let v01 := t.elevation_grid r0.toNat c1.toNat
    let v10 := t.elevation_grid r1.toNat c0.toNat
    let v11 := t.elevation_grid r1.toNat c1.toNat
    some (v00 * (1 - dr) * (1 - dc) + v01 * (1 - dr) * dc +
          v10 * dr * (1 - dc) + v11 * dr * dc)

/-- A 2×2 terrain whose north-west cell holds the NODATA sentinel. -/
def nodataTerrain : TerrainModel :=
  { rows := 2
    cols := 2
    elevation_grid := fun r c => if r = 0 ∧ c = 0 then NODATA else 0
    west := 0
    south := 0
    east := 2
    north := 2 }

/-- Claim C3, counterexample: the sampler never inspects NODATA.  At the
in-bounds point (1.5, 0.5) all four bilinear corners include the NODATA
cell (0,0) of `nodataTerrain`, yet `elevation` returns
`some (-9999/4)` — it interpolates across the sentinel instead of
returning `none` as the claim requires. -/
theorem C3_counterexample :
    nodataTerrain.elevation_grid 0 0 = NODATA ∧
    nodataTerrain.is_in_bounds (3/2) (1/2) = true ∧
    nodataTerrain.elevation (3/2) (1/2) = some (-(9999/4)) := by
  refine ⟨rfl, by norm_num [nodataTerrain, TerrainModel.is_in_bounds], ?_⟩
  norm_num [nodataTerrain, TerrainModel.elevation, TerrainModel.is_in_bounds,
    TerrainModel.latlon_to_rowcol, TerrainModel.lat_per_row,
    TerrainModel.lon_per_col, pyInt, NODATA]

/-- Claim C3 (amended): `elevation` returns `none` exactly when the
query point lies outside the terrain bounds; the four corner cells are
never checked against NODATA, so NODATA values are interpolated like any
other elevation. -/
theorem C3_elevation_none_iff (t : TerrainModel) (lat lon : ℚ) :
    t.elevation lat lon = none ↔ t.is_in_bounds lat lon = false := by
  unfold TerrainModel.elevation
  by_cases h : t.is_in_bounds lat lon <;> simp [h]

/-! ## Coordinate-to-index conversion (`app/simulation/simulator.py`) -/

/-- Embeds the module-level `_latlon_to_index` (simulator.py lines
185-197): `(row, col)` by Python `int()` truncation, with no clamping. -/
def latlon_to_index (t : TerrainModel) (lat lon : ℚ) : ℤ × ℤ :=
  let col := pyInt ((lon - t.west) / (t.east - t.west) * t.cols)
  let row := pyInt ((t.north - lat) / (t.north - t.south) * t.rows)
  (row, col)

/-- A plain 10×10 terrain over the unit square, for index tests. -/
def unitTerrain : TerrainModel :=
  { rows := 10
    cols := 10
    elevation_grid := fun _ _ => 0
    west := 0
    south := 0
    east := 1
    north := 1 }

/-- Claim C8, counterexample: `_latlon_to_index` does not clamp.  On a
10×10 grid over the unit square with ε = 1/100, the point
(south − ε, east − ε) maps to row 10 — one past the last row — and not
to the clamped (R−1, C−1) = (9, 9) the claim states. -/
theorem C8_counterexample :
    latlon_to_index unitTerrain (unitTerrain.south - 1/100) (unitTerrain.east - 1/100)
        = (10, 9) ∧
    ((10 : ℤ), (9 : ℤ)) ≠ ((9 : ℤ), (9 : ℤ)) := by
  constructor
  · norm_num [latlon_to_index, unitTerrain, pyInt]
  · decide

/-- Claim C8 (amended): `to_index(north, west) = (0, 0)`; for every
small ε > 0 the interior point `(south + ε, east − ε)` maps to
`(R−1, C−1)`; and since the function performs no clamping, the outside
point `(south − ε, east − ε)` maps to row `R`, one past the last row. -/
theorem C8_to_index (t : TerrainModel) (ε : ℚ)
    (hrows : 0 < t.rows) (hcols : 0 < t.cols)
    (hlat : t.south < t.north) (hlon : t.west < t.east)
    (hε : 0 < ε)
    (hεr : ε * t.rows < t.north - t.south)
    (hεc : ε * t.cols ≤ t.east - t.west) :
    latlon_to_index t t.north t.west = (0, 0) ∧
    latlon_to_index t (t.south + ε) (t.east - ε) = ((t.rows : ℤ) - 1, (t.cols : ℤ) - 1) ∧
    latlon_to_index t (t.south - ε) (t.east - ε) = ((t.rows : ℤ), (t.cols : ℤ) - 1) := by
  have hΔr : (0 : ℚ) < t.north - t.south := by linarith
  have hΔc : (0 : ℚ) < t.east - t.west := by linarith
  have hR1 : (1 : ℚ) ≤ (t.rows : ℚ) := by exact_mod_cast hrows
  have hC1 : (1 : ℚ) ≤ (t.cols : ℚ) := by exact_mod_cast hcols
  -- the fractional offsets that int() truncates away
  have hzr : 0 < ε * t.rows / (t.north - t.south) ∧
      ε * t.rows / (t.north - t.south) < 1 := by
    constructor
    · apply div_pos _ hΔr
      positivity
    · rw [div_lt_one hΔr]; exact hεr
  have hzc : 0 < ε * t.cols / (t.east - t.west) ∧
      ε * t.cols / (t.east - t.west) ≤ 1 := by
    constructor
    · apply div_pos _ hΔc
      positivity
    · rw [div_le_one hΔc]; exact hεc
  have hcol_in : pyInt ((t.east - ε - t.west) / (t.east - t.west) * t.cols)
      = (t.cols : ℤ) - 1 := by
    have hval : (t.east - ε - t.west) / (t.east - t.west) * t.cols
        = (t.cols : ℚ) - ε * t.cols / (t.east - t.west) := by
      field_simp
      ring
    rw [hval]
    exact pyInt_sub_frac _ _ hC1 hzc.1 hzc.2
  refine ⟨?_, ?_, ?_⟩
  · unfold latlon_to_index
    rw [sub_self, sub_self, zero_div, zero_div, zero_mul, zero_mul]
    rfl
  · unfold latlon_to_index
    rw [hcol_in]
    have hval : (t.north - (t.south + ε)) / (t.north - t.south) * t.rows
        = (t.rows : ℚ) - ε * t.rows / (t.north - t.south) := by
      field_simp
      ring
    rw [hval, pyInt_sub_frac _ _ hR1 hzr.1 (le_of_lt hzr.2)]
  · unfold latlon_to_index
    rw [hcol_in]
    have hval : (t.north - (t.south - ε)) / (t.north - t.south) * t.rows
        = (t.rows : ℚ) + ε * t.rows / (t.north - t.south) := by
      field_simp
      ring
    rw [hval, pyInt_add_frac _ _ (le_of_lt hzr.1) hzr.2]

/-- Closed witness for `C8_to_index` on the 10×10 unit-square terrain
with ε = 1/100. -/
theorem C8_to_index_witness :
    latlon_to_index unitTerrain unitTerrain.north unitTerrain.west = (0, 0) ∧
    latlon_to_index unitTerrain (unitTerrain.south + 1/100) (unitTerrain.east - 1/100)
      = ((unitTerrain.rows : ℤ) - 1, (unitTerrain.cols : ℤ) - 1) ∧
    latlon_to_index unitTerrain (unitTerrain.south - 1/100) (unitTerrain.east - 1/100)
      = ((unitTerrain.rows : ℤ), (unitTerrain.cols : ℤ) - 1) := by
  apply C8_to_index unitTerrain (1/100) <;> norm_num [unitTerrain]

/-! ## Bilinear interpolation at cell centres (claim C9) -/

/-- A 2×2 terrain over `[0,2]²` whose south-east cell holds 4 m, all
other cells 0 m. -/
def cornerTerrain : TerrainModel :=
  { rows := 2
    cols := 2
    elevation_grid := fun r c => if r = 1 ∧ c = 1 then 4 else 0
    west := 0
    south := 0
    east := 2
    north := 2 }

/-- Claim C9, counterexample: at the centre (1.5, 0.5) of cell (0,0) of
`cornerTerrain` the bilinear query returns the mean of the four cells,
`(0+0+0+4)/4 = 1`, a full metre away from the stored value 0 — far
beyond any float tolerance. -/
theorem C9_counterexample :
    cornerTerrain.elevation (3/2) (1/2) = some 1 ∧
    cornerTerrain.elevation_grid 0 0 = 0 ∧ (1 : ℚ) ≠ 0 := by
  refine ⟨?_, rfl, by norm_num⟩
  norm_num [cornerTerrain, TerrainModel.elevation, TerrainModel.is_in_bounds,
    TerrainModel.latlon_to_rowcol, TerrainModel.lat_per_row,
    TerrainModel.lon_per_col, pyInt]

/-- Claim C9 (amended): evaluating the bilinear elevation query at the
centre of grid cell `(r, c)` returns exactly the average of the four
bilinear corner cells `(r, c)`, `(r, c+1)`, `(r+1, c)`, `(r+1, c+1)`
(rows/cols clamped at the last index) — not, in general, the stored
value of cell `(r, c)` itself. -/
theorem C9_center_average (t : TerrainModel) (r c : ℕ)
    (hr : r < t.rows) (hc : c < t.cols)
    (hlat : t.south < t.north) (hlon : t.west < t.east) :
    t.elevation (t.north - ((r : ℚ) + 1/2) * t.lat_per_row)
        (t.west + ((c : ℚ) + 1/2) * t.lon_per_col)
      = some ((t.elevation_grid r c
             + t.elevation_grid r (min (c + 1) (t.cols - 1))
             + t.elevation_grid (min (r + 1) (t.rows - 1)) c
             + t.elevation_grid (min (r + 1) (t.rows - 1)) (min (c + 1) (t.cols - 1))) / 4) := by
  have hrows : 0 < t.rows := Nat.lt_of_le_of_lt (Nat.zero_le r) hr
  have hcols : 0 < t.cols := Nat.lt_of_le_of_lt (Nat.zero_le c) hc
  have hRr : (r : ℚ) ≤ (t.rows : ℚ) - 1 := by
    have h : (r : ℚ) + 1 ≤ t.rows := by exact_mod_cast hr
    linarith
  have hCc : (c : ℚ) ≤ (t.cols : ℚ) - 1 := by
    have h : (c : ℚ) + 1 ≤ t.cols := by exact_mod_cast hc
    linarith
  have hlpr : 0 < t.lat_per_row := by
    unfold TerrainModel.lat_per_row
    apply div_pos (by linarith)
    exact_mod_cast hrows
  have hlpc : 0 < t.lon_per_col := by
    unfold TerrainModel.lon_per_col
    apply div_pos (by linarith)
    exact_mod_cast hcols
  have hmulr : (t.rows : ℚ) * t.lat_per_row = t.north - t.south := by
    unfold TerrainModel.lat_per_row
    field_simp
  have hmulc : (t.cols : ℚ) * t.lon_per_col = t.east - t.west := by
    unfold TerrainModel.lon_per_col
    field_simp
  set lat := t.north - ((r : ℚ) + 1/2) * t.lat_per_row with hlatdef
  set lon := t.west + ((c : ℚ) + 1/2) * t.lon_per_col with hlondef
  have hb : t.is_in_bounds lat lon = true := by
    unfold TerrainModel.is_in_bounds
    rw [decide_eq_true_iff]
    have h1 : ((r : ℚ) + 1/2) * t.lat_per_row ≤ (t.rows : ℚ) * t.lat_per_row := by
      apply mul_le_mul_of_nonneg_right _ hlpr.le
      linarith
    have h2 : 0 ≤ ((r : ℚ) + 1/2) * t.lat_per_row := by
      apply mul_nonneg _ hlpr.le
      positivity
    have h3 : ((c : ℚ) + 1/2) * t.lon_per_col ≤ (t.cols : ℚ) * t.lon_per_col := by
      apply mul_le_mul_of_nonneg_right _ hlpc.le
      linarith
    have h4 : 0 ≤ ((c : ℚ) + 1/2) * t.lon_per_col := by
      apply mul_nonneg _ hlpc.le
      positivity
    refine ⟨by rw [hlatdef]; linarith, by rw [hlatdef]; linarith,
            by rw [hlondef]; linarith, by rw [hlondef]; linarith⟩
  have hrow : (t.north - lat) / t.lat_per_row = (r : ℚ) + 1/2 := by
    have h : t.north - lat = ((r : ℚ) + 1/2) * t.lat_per_row := by
      rw [hlatdef]; ring
    rw [h, mul_div_assoc, div_self hlpr.ne', mul_one]
  have hcol2 : (lon - t.west) / t.lon_per_col = (c : ℚ) + 1/2 := by
    have h : lon - t.west = ((c : ℚ) + 1/2) * t.lon_per_col := by
      rw [hlondef]; ring
    rw [h, mul_div_assoc, div_self hlpc.ne', mul_one]
  have hclampr : max 0 (min ((r : ℤ)) ((t.rows : ℤ) - 1)) = (r : ℤ) := by omega
  have hclampc : max 0 (min ((c : ℤ)) ((t.cols : ℤ) - 1)) = (c : ℤ) := by omega
  have htr : ((r : ℤ)).toNat = r := by omega
  have htc : ((c : ℤ)).toNat = c := by omega
  have htr1 : (min ((r : ℤ) + 1) ((t.rows : ℤ) - 1)).toNat = min (r + 1) (t.rows - 1) := by
    omega
  have htc1 : (min ((c : ℤ) + 1) ((t.cols : ℤ) - 1)).toNat = min (c + 1) (t.cols - 1) := by
    omega
  simp only [TerrainModel.elevation, TerrainModel.latlon_to_rowcol, hb, not_true_eq_false,
    Bool.false_eq_true, if_false]
  simp only [hrow, hcol2]
  rw [pyInt_add_frac r (1/2) (by norm_num) (by norm_num),
      pyInt_add_frac c (1/2) (by norm_num) (by norm_num),
      hclampr, hclampc, htr, htc, htr1, htc1]
  congr 1
  push_cast
  ring

/-! ## Step kernel (`app/simulation/simulator.py`)

The kernel consumes `math.sin`, `math.cos`, `math.exp`, `math.sqrt`,
`math.atan2`, `math.radians` and `math.pi`; these floating-point
transcendentals are abstracted into an operation record, and every
theorem below holds for every interpretation of its fields.  The
`random.*` draws consumed by one call are passed as an explicit tape:
`u` fields are `random.random()` results, `z` fields are standard normal
draws (so `random.gauss(0, s)` becomes `z * s`), and `direction_idx` is
the index produced by `random.choices`. -/

/-- Abstract interpretations of the `math` module functions. -/
structure MathOps where
  sin : ℚ → ℚ
  cos : ℚ → ℚ
  exp : ℚ → ℚ
  sqrt : ℚ → ℚ
  atan2 : ℚ → ℚ → ℚ
  radians : ℚ → ℚ
  pi : ℚ

/-- Embeds `TerrainSampler.slope` (terrain_sampler.py lines 162-199). -/
def TerrainModel.slope (t : TerrainModel) (ops : MathOps)
    (lat1 lon1 lat2 lon2 : ℚ) : Option ℚ :=
  match t.elevation lat1 lon1, t.elevation lat2 lon2 with
  | some elev1, some elev2 =>
    let dlat := ops.radians (lat2 - lat1)
    let dlon := ops.radians (lon2 - lon1)
    let lat_mid := ops.radians ((lat1 + lat2) / 2)
    let dx := dlon * 6371000 * ops.cos lat_mid
    let dy := dlat * 6371000
    let distance := ops.sqrt (dx^2 + dy^2)
    if distance < 0.1 then some 0
    else some ((elev2 - elev1) / distance)
  | _, _ => none

/-- `Strategy` enum (simulator.py lines 30-36). -/
inductive Strategy
  | DIRECTION_TRAVELING
  | ROUTE_TRAVELING
  | RANDOM_WALKING
  | VIEW_ENHANCING
  | STAYING_PUT
deriving DecidableEq, Repr

/-- `Agent` dataclass (simulator.py lines 39-50). -/
structure Agent where
  id : ℕ
  lat : ℚ
  lon : ℚ
  elevation : ℚ
  strategy : Strategy
  heading : ℚ
  steps_taken : ℕ := 0
  energy : ℚ := 1
  is_active : Bool := true
deriving DecidableEq, Repr

/-- `FeatureMasks`: four boolean rasters sharing one shape
(`app/terrain/osm_features.py`). -/
structure FeatureMasks where
  rows : ℕ
  cols : ℕ
  trails : ℕ → ℕ → Bool
  roads : ℕ → ℕ → Bool
  rivers : ℕ → ℕ → Bool
  cliffs : ℕ → ℕ → Bool

/-- Embeds `_is_valid_index` (simulator.py lines 199-205). -/
def is_valid_index (row col : ℤ) (rows cols : ℕ) : Bool :=
  decide (0 ≤ row ∧ row < rows ∧ 0 ≤ col ∧ col < cols)

/-- The eight compass offsets of the step kernel, in source order
N, NE, E, SE, S, SW, W, NW (simulator.py lines 290-299). -/
def DIRECTIONS : List (ℤ × ℤ) :=
  [(0, 1), (1, 1), (1, 0), (1, -1), (0, -1), (-1, -1), (-1, 0), (-1, 1)]

/-- `DIRECTIONS[i]` for a `random.choices` index. -/
def direction_get (i : Fin 8) : ℤ × ℤ :=
  DIRECTIONS.get ⟨i.val, by simp [DIRECTIONS]⟩

/-- Embeds `_calculate_direction_weights` (simulator.py lines 207-269);
the `profile` argument is accepted but unused, as in the source. -/
def calculate_direction_weights (ops : MathOps) (agent : Agent) (t : TerrainModel)
    (features : FeatureMasks) (profile : HikerProfile) : List ℚ :=
  DIRECTIONS.map fun d =>
    let dx := d.1
    let dy := d.2
    let weight : ℚ := 1
    let check_lat := agent.lat + (dy : ℚ) * 0.0005
    let check_lon := agent.lon + (dx : ℚ) * 0.0005
    let weight :=
      match t.slope ops agent.lat agent.lon check_lat check_lon with
      | some slope =>
        if slope > 0 then
          if agent.strategy = Strategy.VIEW_ENHANCING then weight * 3.0
          else weight * 1.2
        else weight * 0.8
      | none => weight
    let rc := latlon_to_index t check_lat check_lon
    let weight :=
      if is_valid_index rc.1 rc.2 features.rows features.cols then
        let is_on_trail := features.trails rc.1.toNat rc.2.toNat
        let is_on_road := features.roads rc.1.toNat rc.2.toNat
        let weight :=
          if is_on_trail || is_on_road then
            if agent.strategy = Strategy.ROUTE_TRAVELING then weight * 5.0
            else weight * 2.0
          else weight
        let weight := if features.rivers rc.1.toNat rc.2.toNat then weight * 0.1 else weight
        let weight := if features.cliffs rc.1.toNat rc.2.toNat then weight * 0.01 else weight
        weight
      else weight
    max 0.01 weight

/-- The random draws consumed by one kernel call. -/
structure StepTape where
  stop_u : ℚ
  sp_u : ℚ
  z_heading : ℚ
  direction_idx : Fin 8
  z_dx : ℚ
  z_dy : ℚ

/-- The stop reasons logged by the kernel. -/
inductive StopReason
  | fatigue
  | trapped
  | left_bounds
  | exceeded_radius
  | invalid_terrain
deriving DecidableEq, Repr

/-- The kernel's log events, keeping only their discriminants. -/
inductive LogEvent
  | stop (reason : StopReason)
  | decision
  | movement
  | energy
deriving DecidableEq, Repr

/-- Embeds the inline haversine of the kernel (simulator.py lines 412-417). -/
def haversine_km (ops : MathOps) (center_lat center_lon lat lon : ℚ) : ℚ :=
  let dlat := ops.radians (lat - center_lat)
  let dlon := ops.radians (lon - center_lon)
  let a := (ops.sin (dlat / 2))^2 +
    ops.cos (ops.radians center_lat) * ops.cos (ops.radians lat) * (ops.sin (dlon / 2))^2
  let c := 2 * ops.atan2 (ops.sqrt a) (ops.sqrt (1 - a))
  6371.0 * c

/-- The straight-line tail of `step_single_agent_pure` after direction
selection (simulator.py lines 374-464): normalisation, Tobler speed,
candidate position, validation, commit and energy decay.  Both the DT
path and the weighted path fall through to this code. -/
def move_agent (ops : MathOps) (agent : Agent) (t : TerrainModel)
    (profile_speed weather_penalty timestep_seconds : ℚ)
    (center_lat center_lon radius_km : ℚ) (dx0 dy0 : ℚ) (logs : List LogEvent) :
    Agent × List LogEvent :=
  let mag := ops.sqrt (dx0^2 + dy0^2)
  let dx := if mag > 0 then dx0 / mag else dx0
  let dy := if mag > 0 then dy0 / mag else dy0
  let lookahead_dist : ℚ := 20.0
  let lookahead_lat := agent.lat + dy * (lookahead_dist / 111320.0)
  let lookahead_lon := agent.lon + dx * (lookahead_dist / (111320.0 * ops.cos (ops.radians agent.lat)))
  let slope := (t.slope ops agent.lat agent.lon lookahead_lat lookahead_lon).getD 0
  let tobler_speed_kmh := 6 * ops.exp (-3.5 * |slope + 0.05|)
  let tobler_speed_mps := tobler_speed_kmh / 3.6
  let final_speed := tobler_speed_mps * (profile_speed / 1.317) * (1 - weather_penalty) * agent.energy
  let distance_m := final_speed * timestep_seconds
  let distance_lat := distance_m / 111320.0
  let distance_lon := distance_m / (111320.0 * ops.cos (ops.radians agent.lat))
  let new_lat := agent.lat + dy * distance_lat
  let new_lon := agent.lon + dx * distance_lon
  if ¬ (t.south ≤ new_lat ∧ new_lat ≤ t.north ∧ t.west ≤ new_lon ∧ new_lon ≤ t.east) then
    ({ agent with is_active := false }, logs ++ [LogEvent.stop StopReason.left_bounds])
  else if haversine_km ops center_lat center_lon new_lat new_lon > radius_km then
    ({ agent with is_active := false }, logs ++ [LogEvent.stop StopReason.exceeded_radius])
  else
    match t.elevation new_lat new_lon with
    | none =>
      ({ agent with is_active := false }, logs ++ [LogEvent.stop StopReason.invalid_terrain])
    | some new_elevation =>
      let energy_loss : ℚ := 0.005 + (if slope > 0 then slope * 0.05 else 0)
      ({ agent with
         lat := new_lat
         lon := new_lon
         elevation := new_elevation
         energy := max 0.1 (agent.energy - energy_loss) },
       logs ++ [LogEvent.movement, LogEvent.energy])

/-- Embeds `step_single_agent_pure` (simulator.py lines 271-464).  The
time-based stop probability is selected exactly as in the source; the
roll happens only when `steps_taken > 4`, which the conjunction mirrors. -/
def step_single_agent_pure (ops : MathOps) (tape : StepTape) (agent : Agent)
    (t : TerrainModel) (features : FeatureMasks) (profile : HikerProfile)
    (weather : WeatherConditions) (timestep_seconds : ℚ)
    (center_lat center_lon radius_km : ℚ) : Agent × List LogEvent :=
  let agent := { agent with steps_taken := agent.steps_taken + 1 }
  let stop_prob : ℚ :=
    if agent.steps_taken > 96 then 0.05
    else if agent.steps_taken > 20 then 0.02
    else 0.005
  if agent.steps_taken > 4 ∧ tape.stop_u < stop_prob then
    ({ agent with is_active := false }, [LogEvent.stop StopReason.fatigue])
  else if agent.strategy = Strategy.STAYING_PUT ∧ tape.sp_u < 0.99 then
    (agent, [LogEvent.decision])
  else
    let profile_speed := profile.speed_factor
    let weather_penalty := weather.movement_penalty
    if agent.strategy = Strategy.DIRECTION_TRAVELING then
      let actual_heading := agent.heading + tape.z_heading * 0.15
      let dx := ops.sin actual_heading
      let dy := ops.cos actual_heading
      move_agent ops agent t profile_speed weather_penalty timestep_seconds
        center_lat center_lon radius_km dx dy [LogEvent.decision]
    else
      let weights := calculate_direction_weights ops agent t features profile
      let total_weight := weights.sum
      if total_weight < 0.001 then
        ({ agent with is_active := false }, [LogEvent.stop StopReason.trapped])
      else
        let d := direction_get tape.direction_idx
        let randomness :=
          if agent.strategy = Strategy.RANDOM_WALKING then 1
          else profile.direction_randomness
        let dx := (d.1 : ℚ) + tape.z_dx * (randomness * 0.3)
        let dy := (d.2 : ℚ) + tape.z_dy * (randomness * 0.3)
        move_agent ops agent t profile_speed weather_penalty timestep_seconds
          center_lat center_lon radius_km dx dy [LogEvent.decision]

/-! ## Initialization and the per-step orchestrator -/

/-- The random draws consumed when seeding one agent. -/
structure InitTape where
  z_lat : ℚ
  z_lon : ℚ
  strategy_u : ℚ
  heading_u : ℚ

/-- Embeds one iteration of `SARSimulator._initialize_agents`
(simulator.py lines 620-668). -/
def initialize_agent (ops : MathOps) (tape : InitTape) (lat lon : ℚ)
    (t : TerrainModel) (id : ℕ) : Agent :=
  let spread : ℚ := 0.001
  let agent_lat := lat + tape.z_lat * (spread / 3)
  let agent_lon := lon + tape.z_lon * (spread / 3)
  let elevation := (t.elevation agent_lat agent_lon).getD 0
  let r := tape.strategy_u * 100
  let strategy :=
    if r < 55.9 then Strategy.DIRECTION_TRAVELING
    else if r < 55.9 + 37.7 then Strategy.ROUTE_TRAVELING
    else if r < 55.9 + 37.7 + 5.5 then Strategy.RANDOM_WALKING
    else if r < 55.9 + 37.7 + 5.5 + 0.6 then Strategy.VIEW_ENHANCING
    else Strategy.STAYING_PUT
  let heading := tape.heading_u * (2 * ops.pi)
  { id := id
    lat := agent_lat
    lon := agent_lon
    elevation := elevation
    strategy := strategy
    heading := heading
    steps_taken := 0
    energy := 1
    is_active := true }

/-- Embeds `SARSimulator._initialize_agents` (simulator.py lines 620-668). -/
def initialize_agents (ops : MathOps) (tapes : ℕ → InitTape) (lat lon : ℚ)
    (t : TerrainModel) (num_agents : ℕ) : List Agent :=
  (List.range num_agents).map fun i => initialize_agent ops (tapes i) lat lon t i

/-- Embeds the serial path of `SARSimulator._step_agents` (simulator.py
lines 670-782) with the tracker disabled, so every active agent is an
"other": actives are stepped (each with its own tape), inactives pass
through, and the result is re-sorted by id.  `TIMESTEP_SECONDS = 900`. -/
def step_agents (ops : MathOps) (tapes : ℕ → StepTape) (agents : List Agent)
    (t : TerrainModel) (features : FeatureMasks) (profile : HikerProfile)
    (weather : WeatherConditions) (center_lat center_lon radius_km : ℚ) : List Agent :=
  let active_agents := agents.filter fun a => a.is_active
  let inactive_agents := agents.filter fun a => !a.is_active
  if active_agents.isEmpty then agents
  else
    let updated_agents := active_agents.map fun a =>
      (step_single_agent_pure ops (tapes a.id) a t features profile weather 900
        center_lat center_lon radius_km).1
    let all_agents := updated_agents ++ inactive_agents
    all_agents.mergeSort fun a b => a.id ≤ b.id

/-- The simulation loop restricted to agent state: `n` calls of
`_step_agents`, step `k` using tape family `tapes k`. -/
def run_steps (ops : MathOps) (tapes : ℕ → ℕ → StepTape) (n : ℕ) (agents : List Agent)
    (t : TerrainModel) (features : FeatureMasks) (profile : HikerProfile)
    (weather : WeatherConditions) (center_lat center_lon radius_km : ℚ) : List Agent :=
  match n with
  | 0 => agents
  | n + 1 =>
    step_agents ops (tapes n)
      (run_steps ops tapes n agents t features profile weather center_lat center_lon radius_km)
      t features profile weather center_lat center_lon radius_km

/-! ## Kernel case analysis

`move_agent_spec` records the only two shapes a `move_agent` result can
take, and `step_single_agent_outcome` the only four shapes a kernel
result can take; every per-claim invariant below is read off from them. -/

theorem move_agent_spec (ops : MathOps) (agent : Agent) (t : TerrainModel)
    (ps wp ts clat clon rkm dx0 dy0 : ℚ) (logs : List LogEvent) :
    (∃ r, r ≠ StopReason.trapped ∧ r ≠ StopReason.fatigue ∧
      move_agent ops agent t ps wp ts clat clon rkm dx0 dy0 logs
        = ({ agent with is_active := false }, logs ++ [LogEvent.stop r])) ∨
    (∃ nlat nlon nelev loss, 0.005 ≤ loss ∧
      t.is_in_bounds nlat nlon = true ∧
      haversine_km ops clat clon nlat nlon ≤ rkm ∧
      move_agent ops agent t ps wp ts clat clon rkm dx0 dy0 logs
        = ({ agent with
             lat := nlat
             lon := nlon
             elevation := nelev
             energy := max 0.1 (agent.energy - loss) },
           logs ++ [LogEvent.movement, LogEvent.energy])) := by
  simp only [move_agent]
  -- the first split resolves `if mag > 0`; the same case analysis of the
  -- validation chain then applies in both of its branches
  split <;>
  · split
    · exact Or.inl ⟨StopReason.left_bounds, by decide, by decide, rfl⟩
    next hbounds =>
      split
      · exact Or.inl ⟨StopReason.exceeded_radius, by decide, by decide, rfl⟩
      next hrad =>
        split
        · exact Or.inl ⟨StopReason.invalid_terrain, by decide, by decide, rfl⟩
        next nelev heq =>
          refine Or.inr ⟨_, _, _, _, ?_, ?_, ?_, rfl⟩
          · split
            next hs => nlinarith
            next => norm_num
          · unfold TerrainModel.is_in_bounds
            rw [decide_eq_true_iff]
            exact not_not.mp hbounds
          · exact le_of_not_lt hrad

/-- The four possible shapes of a kernel result for input `agent`. -/
def step_outcome (agent : Agent) (t : TerrainModel) (ops : MathOps)
    (clat clon rkm : ℚ) (res : Agent × List LogEvent) : Prop :=
  res = ({ agent with steps_taken := agent.steps_taken + 1, is_active := false },
         [LogEvent.stop StopReason.fatigue]) ∨
  res = ({ agent with steps_taken := agent.steps_taken + 1 }, [LogEvent.decision]) ∨
  (∃ r, r ≠ StopReason.trapped ∧ r ≠ StopReason.fatigue ∧
    res = ({ agent with steps_taken := agent.steps_taken + 1, is_active := false },
           [LogEvent.decision, LogEvent.stop r])) ∨
  (∃ nlat nlon nelev loss, 0.005 ≤ loss ∧
    t.is_in_bounds nlat nlon = true ∧
    haversine_km ops clat clon nlat nlon ≤ rkm ∧
    res = ({ agent with
             steps_taken := agent.steps_taken + 1
             lat := nlat
             lon := nlon
             elevation := nelev
             energy := max 0.1 (agent.energy - loss) },
           [LogEvent.decision, LogEvent.movement, LogEvent.energy]))

theorem weights_lower_bound (ops : MathOps) (agent : Agent) (t : TerrainModel)
    (features : FeatureMasks) (profile : HikerProfile) :
    ∀ w ∈ calculate_direction_weights ops agent t features profile, 0.01 ≤ w := by
  intro w hw
  unfold calculate_direction_weights at hw
  simp only [List.mem_map] at hw
  obtain ⟨d, _, rfl⟩ := hw
  exact le_max_left _ _

theorem mul_length_le_sum (l : List ℚ) (c : ℚ) (h : ∀ w ∈ l, c ≤ w) :
    c * l.length ≤ l.sum := by
  induction l with
  | nil => simp
  | cons x xs ih =>
    have hx := h x (List.mem_cons_self x xs)
    have hxs := ih fun w hw => h w (List.mem_cons_of_mem x hw)
    simp only [List.sum_cons, List.length_cons]
    push_cast
    linarith

theorem weights_sum_lower_bound (ops : MathOps) (agent : Agent) (t : TerrainModel)
    (features : FeatureMasks) (profile : HikerProfile) :
    0.08 ≤ (calculate_direction_weights ops agent t features profile).sum := by
  have h := mul_length_le_sum _ 0.01 (weights_lower_bound ops agent t features profile)
  have hlen : (calculate_direction_weights ops agent t features profile).length = 8 := by
    unfold calculate_direction_weights
    simp [DIRECTIONS]
  rw [hlen] at h
  norm_num at h
  linarith

theorem step_single_agent_outcome (ops : MathOps) (tape : StepTape) (agent : Agent)
    (t : TerrainModel) (features : FeatureMasks) (profile : HikerProfile)
    (weather : WeatherConditions) (ts clat clon rkm : ℚ) :
    step_outcome agent t ops clat clon rkm
      (step_single_agent_pure ops tape agent t features profile weather ts clat clon rkm) := by
  simp only [step_single_agent_pure]
  -- the selected stop probability is irrelevant to the outcome shapes
  generalize (if agent.steps_taken + 1 > 96 then (0.05 : ℚ)
    else if agent.steps_taken + 1 > 20 then 0.02 else 0.005) = sp
  · split
    · exact Or.inl rfl
    · split
      · exact Or.inr (Or.inl rfl)
      · split
        · -- direction travelling: falls through to move_agent
          rcases move_agent_spec ops { agent with steps_taken := agent.steps_taken + 1 } t
              (profile.speed_factor) (weather.movement_penalty) ts clat clon rkm _ _
              [LogEvent.decision] with ⟨r, hr1, hr2, heq⟩ | ⟨nlat, nlon, nelev, loss, h1, h2, h3, heq⟩
          · rw [heq]
            exact Or.inr (Or.inr (Or.inl ⟨r, hr1, hr2, rfl⟩))
          · rw [heq]
            exact Or.inr (Or.inr (Or.inr ⟨nlat, nlon, nelev, loss, h1, h2, h3, rfl⟩))
        · -- weighted direction: the trapped branch is unreachable
          rw [if_neg (by
            have hsum := weights_sum_lower_bound ops
              { agent with steps_taken := agent.steps_taken + 1 } t features profile
            intro hlt
            norm_num at hsum hlt
            linarith)]
          rcases move_agent_spec ops { agent with steps_taken := agent.steps_taken + 1 } t
              (profile.speed_factor) (weather.movement_penalty) ts clat clon rkm _ _
              [LogEvent.decision] with ⟨r, hr1, hr2, heq⟩ | ⟨nlat, nlon, nelev, loss, h1, h2, h3, heq⟩
          · rw [heq]
            exact Or.inr (Or.inr (Or.inl ⟨r, hr1, hr2, rfl⟩))
          · rw [heq]
            exact Or.inr (Or.inr (Or.inr ⟨nlat, nlon, nelev, loss, h1, h2, h3, rfl⟩))

theorem step_id_eq (ops : MathOps) (tape : StepTape) (agent : Agent) (t : TerrainModel)
    (features : FeatureMasks) (profile : HikerProfile) (weather : WeatherConditions)
    (ts clat clon rkm : ℚ) :
    (step_single_agent_pure ops tape agent t features profile weather ts clat clon rkm).1.id
      = agent.id := by
  rcases step_single_agent_outcome ops tape agent t features profile weather ts clat clon rkm with
    h | h | ⟨r, _, _, h⟩ | ⟨nlat, nlon, nelev, loss, _, _, _, h⟩ <;> rw [h]

theorem step_active_imp (ops : MathOps) (tape : StepTape) (agent : Agent) (t : TerrainModel)
    (features : FeatureMasks) (profile : HikerProfile) (weather : WeatherConditions)
    (ts clat clon rkm : ℚ) :
    (step_single_agent_pure ops tape agent t features profile weather ts clat clon rkm).1.is_active
        = true →
      agent.is_active = true := by
  rcases step_single_agent_outcome ops tape agent t features profile weather ts clat clon rkm with
    h | h | ⟨r, _, _, h⟩ | ⟨nlat, nlon, nelev, loss, _, _, _, h⟩ <;> rw [h] <;> intro hact
  · simp at hact
  · simpa using hact
  · simp at hact
  · simpa using hact

theorem step_energy_bounds (ops : MathOps) (tape : StepTape) (agent : Agent) (t : TerrainModel)
    (features : FeatureMasks) (profile : HikerProfile) (weather : WeatherConditions)
    (ts clat clon rkm : ℚ) (he : 0.1 ≤ agent.energy) :
    0.1 ≤ (step_single_agent_pure ops tape agent t features profile weather ts clat clon rkm).1.energy ∧
    (step_single_agent_pure ops tape agent t features profile weather ts clat clon rkm).1.energy
      ≤ agent.energy := by
  rcases step_single_agent_outcome ops tape agent t features profile weather ts clat clon rkm with
    h | h | ⟨r, _, _, h⟩ | ⟨nlat, nlon, nelev, loss, hloss, _, _, h⟩ <;> rw [h]
  · exact ⟨he, le_rfl⟩
  · exact ⟨he, le_rfl⟩
  · exact ⟨he, le_rfl⟩
  · constructor
    · simpa using le_max_left (0.1 : ℚ) (agent.energy - loss)
    · simp only []
      apply max_le he
      linarith

/-- The conjunction checked by the kernel's validation chain: the agent
position lies inside the terrain bounds and within `radius_km` of the
centre by the kernel's haversine. -/
def in_search_area (ops : MathOps) (t : TerrainModel) (clat clon rkm : ℚ) (a : Agent) : Prop :=
  t.is_in_bounds a.lat a.lon = true ∧ haversine_km ops clat clon a.lat a.lon ≤ rkm

theorem step_in_area (ops : MathOps) (tape : StepTape) (agent : Agent) (t : TerrainModel)
    (features : FeatureMasks) (profile : HikerProfile) (weather : WeatherConditions)
    (ts clat clon rkm : ℚ) (hin : in_search_area ops t clat clon rkm agent) :
    (step_single_agent_pure ops tape agent t features profile weather ts clat clon rkm).1.is_active
        = true →
      in_search_area ops t clat clon rkm
        (step_single_agent_pure ops tape agent t features profile weather ts clat clon rkm).1 := by
  rcases step_single_agent_outcome ops tape agent t features profile weather ts clat clon rkm with
    h | h | ⟨r, _, _, h⟩ | ⟨nlat, nlon, nelev, loss, _, hb, hrad, h⟩ <;> rw [h] <;> intro hact
  · simp at hact
  · unfold in_search_area at hin ⊢
    simpa using hin
  · simp at hact
  · unfold in_search_area
    simpa using ⟨hb, hrad⟩

theorem step_agents_mem (ops : MathOps) (tapes : ℕ → StepTape) (agents : List Agent)
    (t : TerrainModel) (features : FeatureMasks) (profile : HikerProfile)
    (weather : WeatherConditions) (clat clon rkm : ℚ) (a : Agent)
    (ha : a ∈ step_agents ops tapes agents t features profile weather clat clon rkm) :
    a ∈ agents ∨
    ∃ a0 ∈ agents, a0.is_active = true ∧
      a = (step_single_agent_pure ops (tapes a0.id) a0 t features profile weather 900
            clat clon rkm).1 := by
  simp only [step_agents] at ha
  split at ha
  · exact Or.inl ha
  · rw [(List.mergeSort_perm _ _).mem_iff] at ha
    rcases List.mem_append.mp ha with hup | hin
    · rcases List.mem_map.mp hup with ⟨a0, ha0, rfl⟩
      have hf := List.mem_filter.mp ha0
      exact Or.inr ⟨a0, hf.1, hf.2, rfl⟩
    · exact Or.inl (List.mem_filter.mp hin).1

theorem run_steps_energy (ops : MathOps) (tapes : ℕ → ℕ → StepTape) (agents : List Agent)
    (t : TerrainModel) (features : FeatureMasks) (profile : HikerProfile)
    (weather : WeatherConditions) (clat clon rkm : ℚ)
    (hinit : ∀ a ∈ agents, 0.1 ≤ a.energy ∧ a.energy ≤ 1) (n : ℕ) :
    ∀ a ∈ run_steps ops tapes n agents t features profile weather clat clon rkm,
      0.1 ≤ a.energy ∧ a.energy ≤ 1 := by
  induction n with
  | zero => simpa [run_steps] using hinit
  | succ n ih =>
    intro a ha
    simp only [run_steps] at ha
    rcases step_agents_mem ops (tapes n) _ t features profile weather clat clon rkm a ha with
      hmem | ⟨a0, ha0, hact, rfl⟩
    · exact ih a hmem
    · obtain ⟨h1, h2⟩ := ih a0 ha0
      obtain ⟨he1, he2⟩ := step_energy_bounds ops (tapes n a0.id) a0 t features profile weather
        900 clat clon rkm h1
      exact ⟨he1, he2.trans h2⟩

/-- Claim C6: across any number of orchestrator steps, every agent's
energy stays within [0.1, 1.0] (given the initial agents respect it,
as `_initialize_agents` seeds `energy = 1.0`), and activity is monotone
non-increasing: every agent that is active after step n+1 descends from
an agent with the same id that was active after step n — a deactivated
agent is never reactivated. -/
theorem C6_energy_bounds_active_monotone (ops : MathOps) (tapes : ℕ → ℕ → StepTape)
    (agents : List Agent) (t : TerrainModel) (features : FeatureMasks)
    (profile : HikerProfile) (weather : WeatherConditions) (clat clon rkm : ℚ)
    (hinit : ∀ a ∈ agents, 0.1 ≤ a.energy ∧ a.energy ≤ 1) (n : ℕ) :
    (∀ a ∈ run_steps ops tapes n agents t features profile weather clat clon rkm,
      0.1 ≤ a.energy ∧ a.energy ≤ 1) ∧
    (∀ a ∈ run_steps ops tapes (n + 1) agents t features profile weather clat clon rkm,
      a.is_active = true →
      ∃ a0 ∈ run_steps ops tapes n agents t features profile weather clat clon rkm,
        a0.id = a.id ∧ a0.is_active = true) := by
  refine ⟨run_steps_energy ops tapes agents t features profile weather clat clon rkm hinit n, ?_⟩
  intro a ha hact
  simp only [run_steps] at ha
  rcases step_agents_mem ops (tapes n) _ t features profile weather clat clon rkm a ha with
    hmem | ⟨a0, ha0, hact0, rfl⟩
  · exact ⟨a, hmem, rfl, hact⟩
  · exact ⟨a0, ha0,
      (step_id_eq ops (tapes n a0.id) a0 t features profile weather 900 clat clon rkm).symm,
      hact0⟩

/-- Claim C5 (amended): provided every initially active agent already
lies within the terrain bounds and within `radius_km` of the centre
(which `_initialize_agents` does not itself check), every agent that is
still active after any number of steps lies within the terrain bounds
and within `radius_km` of the centre by the kernel's haversine. -/
theorem C5_active_within_radius_and_bounds (ops : MathOps) (tapes : ℕ → ℕ → StepTape)
    (agents : List Agent) (t : TerrainModel) (features : FeatureMasks)
    (profile : HikerProfile) (weather : WeatherConditions) (clat clon rkm : ℚ)
    (hinit : ∀ a ∈ agents, a.is_active = true → in_search_area ops t clat clon rkm a) (n : ℕ) :
    ∀ a ∈ run_steps ops tapes n agents t features profile weather clat clon rkm,
      a.is_active = true → in_search_area ops t clat clon rkm a := by
  induction n with
  | zero => simpa [run_steps] using hinit
  | succ n ih =>
    intro a ha hact
    simp only [run_steps] at ha
    rcases step_agents_mem ops (tapes n) _ t features profile weather clat clon rkm a ha with
      hmem | ⟨a0, ha0, hact0, rfl⟩
    · exact ih a hmem hact
    · exact step_in_area ops (tapes n a0.id) a0 t features profile weather 900 clat clon rkm
        (ih a0 ha0 hact0) hact

/-- Claim C10: every direction weight is floored at 0.01, so the eight
weights sum to at least 0.08; consequently the `total_weight < 0.001`
trapped branch of the kernel is unreachable, and no agent — in
particular no non-DT agent — is ever deactivated with the trapped stop
reason. -/
theorem C10_weight_floor_no_trapped (ops : MathOps) (agent : Agent) (t : TerrainModel)
    (features : FeatureMasks) (profile : HikerProfile) :
    (∀ w ∈ calculate_direction_weights ops agent t features profile, 0.01 ≤ w) ∧
    0.08 ≤ (calculate_direction_weights ops agent t features profile).sum ∧
    ∀ tape weather ts clat clon rkm,
      LogEvent.stop StopReason.trapped ∉
        (step_single_agent_pure ops tape agent t features profile weather ts clat clon rkm).2 := by
  refine ⟨weights_lower_bound ops agent t features profile,
    weights_sum_lower_bound ops agent t features profile, ?_⟩
  intro tape weather ts clat clon rkm
  rcases step_single_agent_outcome ops tape agent t features profile weather ts clat clon rkm with
    h | h | ⟨r, hr, _, h⟩ | ⟨nlat, nlon, nelev, loss, _, _, _, h⟩ <;> rw [h]
  · simp
  · simp
  · simp [Ne.symm hr]
  · simp

/-! ## Concrete instances for counterexamples and witnesses -/

/-- An all-zero interpretation of the transcendental operations. -/
def ops0 : MathOps :=
  { sin := fun _ => 0
    cos := fun _ => 0
    exp := fun _ => 0
    sqrt := fun _ => 0
    atan2 := fun _ _ => 0
    radians := fun _ => 0
    pi := 0 }

/-- Empty 2×2 feature masks. -/
def masks0 : FeatureMasks :=
  { rows := 2
    cols := 2
    trails := fun _ _ => false
    roads := fun _ _ => false
    rivers := fun _ _ => false
    cliffs := fun _ _ => false }

/-- The default hiker profile (no age, skill 3). -/
def profile0 : HikerProfile := {}

/-- The default benign weather. -/
def weather0 : WeatherConditions := {}

/-- A fixed step tape: no stop roll fires, an SP agent waits. -/
def tape0 : StepTape :=
  { stop_u := 1
    sp_u := 0
    z_heading := 0
    direction_idx := 0
    z_dx := 0
    z_dy := 0 }

/-- The same tape for every agent at every step. -/
def tapes0 : ℕ → ℕ → StepTape := fun _ _ => tape0

/-- Init draws that throw the agent 1.5° north of the centre (a 4500-σ
normal draw — astronomically unlikely, but in the support) and select
the staying-put strategy (`r = 99.9`). -/
def itape0 : InitTape :=
  { z_lat := 4500
    z_lon := 0
    strategy_u := 999/1000
    heading_u := 0 }

/-- A well-placed staying-put agent at the centre of `unitTerrain`. -/
def agent0 : Agent :=
  { id := 0
    lat := 1/2
    lon := 1/2
    elevation := 0
    strategy := Strategy.STAYING_PUT
    heading := 0 }

/-- Claim C5, counterexample: `_initialize_agents` never validates the
seeded position, and the staying-put wait branch of the kernel returns
without any bounds or radius check.  With the (legal) draws of `itape0`
the seeded agent sits at latitude 2 — outside `unitTerrain`'s bounds —
and after step 1 it is still active there. -/
theorem C5_counterexample :
    ((step_single_agent_pure ops0 tape0
        (initialize_agent ops0 itape0 (1/2) (1/2) unitTerrain 0)
        unitTerrain masks0 profile0 weather0 900 (1/2) (1/2) 10).1.is_active = true) ∧
    unitTerrain.is_in_bounds
      (step_single_agent_pure ops0 tape0
        (initialize_agent ops0 itape0 (1/2) (1/2) unitTerrain 0)
        unitTerrain masks0 profile0 weather0 900 (1/2) (1/2) 10).1.lat
      (step_single_agent_pure ops0 tape0
        (initialize_agent ops0 itape0 (1/2) (1/2) unitTerrain 0)
        unitTerrain masks0 profile0 weather0 900 (1/2) (1/2) 10).1.lon = false := by
  have hag : initialize_agent ops0 itape0 (1/2) (1/2) unitTerrain 0 =
      { id := 0
        lat := 2
        lon := 1/2
        elevation := 0
        strategy := Strategy.STAYING_PUT
        heading := 0 } := by
    unfold initialize_agent
    norm_num [itape0, ops0, TerrainModel.elevation, TerrainModel.is_in_bounds, unitTerrain]
  rw [hag]
  have hstep : step_single_agent_pure ops0 tape0
      { id := 0
        lat := 2
        lon := 1/2
        elevation := 0
        strategy := Strategy.STAYING_PUT
        heading := 0 }
      unitTerrain masks0 profile0 weather0 900 (1/2) (1/2) 10 =
      ({ id := 0
         lat := 2
         lon := 1/2
         elevation := 0
         strategy := Strategy.STAYING_PUT
         heading := 0
         steps_taken := 1 }, [LogEvent.decision]) := by
    unfold step_single_agent_pure
    norm_num [tape0]
  rw [hstep]
  refine ⟨rfl, ?_⟩
  norm_num [unitTerrain, TerrainModel.is_in_bounds]

/-- Closed witness for `C5_active_within_radius_and_bounds`: one
well-placed agent, one step. -/
theorem C5_witness :
    (∀ a ∈ [agent0], a.is_active = true → in_search_area ops0 unitTerrain (1/2) (1/2) 10 a) ∧
    (∀ a ∈ run_steps ops0 tapes0 1 [agent0] unitTerrain masks0 profile0 weather0 (1/2) (1/2) 10,
      a.is_active = true → in_search_area ops0 unitTerrain (1/2) (1/2) 10 a) := by
  have hinit : ∀ a ∈ [agent0], a.is_active = true →
      in_search_area ops0 unitTerrain (1/2) (1/2) 10 a := by
    intro a ha _
    rw [List.mem_singleton] at ha
    subst ha
    constructor
    · norm_num [agent0, unitTerrain, TerrainModel.is_in_bounds]
    · norm_num [agent0, haversine_km, ops0]
  exact ⟨hinit, C5_active_within_radius_and_bounds ops0 tapes0 [agent0] unitTerrain masks0
    profile0 weather0 (1/2) (1/2) 10 hinit 1⟩

/-- Closed witness for `C6_energy_bounds_active_monotone`: one agent of
full energy, one step. -/
theorem C6_witness :
    (∀ a ∈ [agent0], 0.1 ≤ a.energy ∧ a.energy ≤ 1) ∧
    ((∀ a ∈ run_steps ops0 tapes0 0 [agent0] unitTerrain masks0 profile0 weather0 (1/2) (1/2) 10,
        0.1 ≤ a.energy ∧ a.energy ≤ 1) ∧
     (∀ a ∈ run_steps ops0 tapes0 1 [agent0] unitTerrain masks0 profile0 weather0 (1/2) (1/2) 10,
        a.is_active = true →
        ∃ a0 ∈ run_steps ops0 tapes0 0 [agent0] unitTerrain masks0 profile0 weather0 (1/2) (1/2) 10,
          a0.id = a.id ∧ a0.is_active = true)) := by
  have hinit : ∀ a ∈ [agent0], 0.1 ≤ a.energy ∧ a.energy ≤ 1 := by
    intro a ha
    rw [List.mem_singleton] at ha
    subst ha
    norm_num [agent0]
  exact ⟨hinit, C6_energy_bounds_active_monotone ops0 tapes0 [agent0] unitTerrain masks0
    profile0 weather0 (1/2) (1/2) 10 hinit 0⟩

/-! ## Density reducer (`SARSimulator._agents_to_grid`)

`scipy.ndimage.gaussian_filter(σ=0.5)` is a separable correlation with a
5-tap truncated Gaussian in reflect mode; the two 1-D passes compose to
the product-kernel 2-D correlation below.  The exact tap values are
floating-point library internals, so they are abstracted into `kernel`,
constrained in the theorem to be non-negative with a positive centre tap
— which the Gaussian taps are. -/

/-- scipy reflect-mode index folding, adequate for a radius-2 kernel on
a grid with at least 2 cells. -/
def reflect_index (n : ℕ) (i : ℤ) : ℕ :=
  if i < 0 then (-i - 1).toNat
  else if i ≥ n then (2 * n - i - 1).toNat
  else i.toNat

theorem reflect_index_lt (n : ℕ) (hn : 2 ≤ n) (i : ℤ) (h1 : -2 ≤ i) (h2 : i ≤ n + 1) :
    reflect_index n i < n := by
  unfold reflect_index
  split
  · omega
  · split <;> omega

theorem reflect_index_coe (n i : ℕ) (h : i < n) : reflect_index n (i : ℤ) = i := by
  unfold reflect_index
  split
  · omega
  · split <;> omega

/-- The composition of the two 1-D passes of
`scipy.ndimage.gaussian_filter` with a radius-2 kernel. -/
def gaussian_filter (G : ℕ) (kernel : ℕ → ℚ) (d : ℕ → ℕ → ℚ) : ℕ → ℕ → ℚ :=
  fun i j =>
    ∑ o1 ∈ Finset.range 5, ∑ o2 ∈ Finset.range 5,
      kernel o1 * kernel o2 *
        d (reflect_index G ((i : ℤ) + o1 - 2)) (reflect_index G ((j : ℤ) + o2 - 2))

/-- `density.max()` over the G×G grid. -/
def grid_max (G : ℕ) (d : ℕ → ℕ → ℚ) : ℚ :=
  ((List.range G).map fun i => ((List.range G).map (d i)).foldr max 0).foldr max 0

/-- The clamped output-grid cell of an agent (simulator.py lines
884-890): `int()` truncation, then clamping to `[0, G-1]`. -/
def agent_grid_cell (t : TerrainModel) (G : ℕ) (a : Agent) : ℕ × ℕ :=
  let col : ℤ := pyInt ((a.lon - t.west) / (t.east - t.west) * G)
  let row : ℤ := pyInt ((t.north - a.lat) / (t.north - t.south) * G)
  let col := max 0 (min col ((G : ℤ) - 1))
  let row := max 0 (min row ((G : ℤ) - 1))
  (row.toNat, col.toNat)

theorem agent_grid_cell_lt (t : TerrainModel) (G : ℕ) (a : Agent) (hG : 0 < G) :
    (agent_grid_cell t G a).1 < G ∧ (agent_grid_cell t G a).2 < G := by
  unfold agent_grid_cell
  constructor <;> simp only [] <;> omega

/-- Embeds `SARSimulator._agents_to_grid` (simulator.py lines 859-910):
count active agents per clamped cell, divide by the active count, smooth
with the Gaussian, divide by the maximum when it is positive. -/
def agents_to_grid (t : TerrainModel) (kernel : ℕ → ℚ) (agents : List Agent) (G : ℕ) :
    ℕ → ℕ → ℚ :=
  let active := agents.filter fun a => a.is_active
  let active_count := active.length
  if active_count = 0 then fun _ _ => 0
  else
    let density : ℕ → ℕ → ℚ := fun i j =>
      ((active.filter fun a => agent_grid_cell t G a = (i, j)).length : ℚ) / active_count
    let smoothed := gaussian_filter G kernel density
    let max_val := grid_max G smoothed
    if max_val > 0 then fun i j => smoothed i j / max_val else smoothed

theorem foldr_max_nonneg (l : List ℚ) : 0 ≤ l.foldr max 0 := by
  induction l with
  | nil => simp
  | cons x xs ih =>
    simp only [List.foldr_cons]
    exact ih.trans (le_max_right x _)

theorem le_foldr_max (l : List ℚ) (x : ℚ) (hx : x ∈ l) : x ≤ l.foldr max 0 := by
  induction l with
  | nil => cases hx
  | cons y ys ih =>
    simp only [List.foldr_cons]
    rcases List.mem_cons.mp hx with rfl | h
    · exact le_max_left _ _
    · exact (ih h).trans (le_max_right _ _)

theorem foldr_max_le (l : List ℚ) (c : ℚ) (hc : 0 ≤ c) (h : ∀ x ∈ l, x ≤ c) :
    l.foldr max 0 ≤ c := by
  induction l with
  | nil => simpa
  | cons y ys ih =>
    simp only [List.foldr_cons]
    exact max_le (h y (List.mem_cons_self y ys)) (ih fun x hx => h x (List.mem_cons_of_mem y hx))

theorem foldr_max_eq_zero_or_mem (l : List ℚ) : l.foldr max 0 = 0 ∨ l.foldr max 0 ∈ l := by
  induction l with
  | nil => exact Or.inl rfl
  | cons y ys ih =>
    simp only [List.foldr_cons]
    rcases max_choice y (ys.foldr max 0) with h | h
    · rw [h]
      exact Or.inr (List.mem_cons_self y ys)
    · rw [h]
      rcases ih with h0 | hm
      · exact Or.inl h0
      · exact Or.inr (List.mem_cons_of_mem y hm)

theorem le_grid_max (G : ℕ) (d : ℕ → ℕ → ℚ) (i j : ℕ) (hi : i < G) (hj : j < G) :
    d i j ≤ grid_max G d := by
  unfold grid_max
  have h1 : d i j ≤ ((List.range G).map (d i)).foldr max 0 :=
    le_foldr_max _ _ (List.mem_map.mpr ⟨j, List.mem_range.mpr hj, rfl⟩)
  exact h1.trans (le_foldr_max _ _ (List.mem_map.mpr ⟨i, List.mem_range.mpr hi, rfl⟩))

theorem grid_max_le (G : ℕ) (d : ℕ → ℕ → ℚ) (c : ℚ) (hc : 0 ≤ c)
    (h : ∀ i < G, ∀ j < G, d i j ≤ c) : grid_max G d ≤ c := by
  unfold grid_max
  apply foldr_max_le _ c hc
  intro x hx
  rcases List.mem_map.mp hx with ⟨i, hi, rfl⟩
  apply foldr_max_le _ c hc
  intro y hy
  rcases List.mem_map.mp hy with ⟨j, hj, rfl⟩
  exact h i (List.mem_range.mp hi) j (List.mem_range.mp hj)

theorem grid_max_attained (G : ℕ) (d : ℕ → ℕ → ℚ) :
    grid_max G d = 0 ∨ ∃ i < G, ∃ j < G, grid_max G d = d i j := by
  unfold grid_max
  rcases foldr_max_eq_zero_or_mem
      ((List.range G).map fun i => ((List.range G).map (d i)).foldr max 0) with h0 | hm
  · exact Or.inl h0
  · rcases List.mem_map.mp hm with ⟨i, hi, hrow⟩
    rcases foldr_max_eq_zero_or_mem ((List.range G).map (d i)) with h0r | hmr
    · exact Or.inl (by rw [← hrow, h0r])
    · rcases List.mem_map.mp hmr with ⟨j, hj, hval⟩
      exact Or.inr ⟨i, List.mem_range.mp hi, j, List.mem_range.mp hj, by rw [← hrow, ← hval]⟩

theorem gaussian_filter_nonneg (G : ℕ) (kernel : ℕ → ℚ) (d : ℕ → ℕ → ℚ)
    (hker : ∀ i, 0 ≤ kernel i) (hd : ∀ i j, 0 ≤ d i j) (i j : ℕ) :
    0 ≤ gaussian_filter G kernel d i j := by
  unfold gaussian_filter
  apply Finset.sum_nonneg
  intro o1 _
  apply Finset.sum_nonneg
  intro o2 _
  exact mul_nonneg (mul_nonneg (hker o1) (hker o2)) (hd _ _)

theorem gaussian_filter_center_le (G : ℕ) (kernel : ℕ → ℚ) (d : ℕ → ℕ → ℚ)
    (hker : ∀ i, 0 ≤ kernel i) (hd : ∀ i j, 0 ≤ d i j) (i j : ℕ) (hi : i < G) (hj : j < G) :
    kernel 2 * kernel 2 * d i j ≤ gaussian_filter G kernel d i j := by
  unfold gaussian_filter
  have hii : (i : ℤ) + (2 : ℕ) - 2 = (i : ℤ) := by push_cast; ring
  have hjj : (j : ℤ) + (2 : ℕ) - 2 = (j : ℤ) := by push_cast; ring
  have hinner : kernel 2 * kernel 2 * d i j ≤
      ∑ o2 ∈ Finset.range 5, kernel 2 * kernel o2 *
        d (reflect_index G ((i : ℤ) + (2 : ℕ) - 2)) (reflect_index G ((j : ℤ) + o2 - 2)) := by
    have h2 := Finset.single_le_sum
      (f := fun o2 => kernel 2 * kernel o2 *
        d (reflect_index G ((i : ℤ) + (2 : ℕ) - 2)) (reflect_index G ((j : ℤ) + o2 - 2)))
      (fun o2 _ => mul_nonneg (mul_nonneg (hker 2) (hker o2)) (hd _ _))
      (by norm_num : (2 : ℕ) ∈ Finset.range 5)
    calc kernel 2 * kernel 2 * d i j
        = kernel 2 * kernel 2 *
            d (reflect_index G ((i : ℤ) + (2 : ℕ) - 2)) (reflect_index G ((j : ℤ) + (2 : ℕ) - 2)) := by
          rw [hii, hjj, reflect_index_coe G i hi, reflect_index_coe G j hj]
      _ ≤ _ := h2
  refine hinner.trans ?_
  exact Finset.single_le_sum
    (f := fun o1 => ∑ o2 ∈ Finset.range 5, kernel o1 * kernel o2 *
      d (reflect_index G ((i : ℤ) + o1 - 2)) (reflect_index G ((j : ℤ) + o2 - 2)))
    (fun o1 _ => Finset.sum_nonneg fun o2 _ =>
      mul_nonneg (mul_nonneg (hker o1) (hker o2)) (hd _ _))
    (by norm_num : (2 : ℕ) ∈ Finset.range 5)

/-- Claim C7: every in-range value of the output grid lies in [0, 1];
the grid's maximum is 0 when no agents are active, and exactly 1 when at
least one agent is active.  `kernel` stands for the positive truncated
Gaussian taps of scipy's σ=0.5 filter. -/
theorem C7_grid_values (t : TerrainModel) (kernel : ℕ → ℚ) (agents : List Agent) (G : ℕ)
    (hG : 2 ≤ G) (hker : ∀ i, 0 ≤ kernel i) (hker2 : 0 < kernel 2) :
    (∀ i < G, ∀ j < G, 0 ≤ agents_to_grid t kernel agents G i j ∧
      agents_to_grid t kernel agents G i j ≤ 1) ∧
    ((agents.filter fun a => a.is_active) = [] →
      grid_max G (agents_to_grid t kernel agents G) = 0) ∧
    ((agents.filter fun a => a.is_active) ≠ [] →
      grid_max G (agents_to_grid t kernel agents G) = 1) := by
  by_cases hne : (agents.filter fun a => a.is_active) = []
  · -- no active agents: the all-zero grid
    have hzero : agents_to_grid t kernel agents G = fun _ _ => 0 := by
      unfold agents_to_grid
      rw [if_pos (by rw [hne]; rfl)]
    refine ⟨?_, ?_, ?_⟩
    · intro i _ j _
      rw [hzero]
      norm_num
    · intro _
      rw [hzero]
      apply le_antisymm
      · exact grid_max_le G _ 0 le_rfl (by intro i _ j _; exact le_rfl)
      · exact foldr_max_nonneg _
    · intro hcontra
      exact absurd hne hcontra
  · -- at least one active agent
    have hcount : ((agents.filter fun a => a.is_active).length : ℚ) ≠ 0 := by
      simpa [List.length_eq_zero] using hne
    have hcount_pos : (0 : ℚ) < ((agents.filter fun a => a.is_active).length : ℚ) := by
      have : 0 < (agents.filter fun a => a.is_active).length :=
        List.length_pos.mpr hne
      exact_mod_cast this
    set L := agents.filter fun a => a.is_active with hL
    set density : ℕ → ℕ → ℚ := fun i j =>
      ((L.filter fun a => agent_grid_cell t G a = (i, j)).length : ℚ) / L.length with hdensity
    have hd_nonneg : ∀ i j, 0 ≤ density i j := by
      intro i j
      simp only [hdensity]
      positivity
    set smoothed := gaussian_filter G kernel density with hsmoothed
    set max_val := grid_max G smoothed with hmaxval
    have hs_nonneg : ∀ i j, 0 ≤ smoothed i j := fun i j =>
      gaussian_filter_nonneg G kernel density hker hd_nonneg i j
    -- the head of the active list gives a strictly positive density cell
    obtain ⟨a0, ha0⟩ : ∃ x, x ∈ L := ⟨L.head hne, List.head_mem hne⟩
    obtain ⟨hi0, hj0⟩ := agent_grid_cell_lt t G a0 (by omega)
    have hd_pos : 0 < density (agent_grid_cell t G a0).1 (agent_grid_cell t G a0).2 := by
      rw [hdensity]
      apply div_pos _ hcount_pos
      have hmem : a0 ∈ L.filter fun a =>
          agent_grid_cell t G a = ((agent_grid_cell t G a0).1, (agent_grid_cell t G a0).2) := by
        rw [List.mem_filter]
        exact ⟨ha0, by rw [decide_eq_true_iff]⟩
      have : 0 < (L.filter fun a =>
          agent_grid_cell t G a = ((agent_grid_cell t G a0).1, (agent_grid_cell t G a0).2)).length :=
        List.length_pos.mpr (List.ne_nil_of_mem hmem)
      exact_mod_cast this
    have hs_pos : 0 < smoothed (agent_grid_cell t G a0).1 (agent_grid_cell t G a0).2 := by
      rw [hsmoothed]
      calc (0 : ℚ) < kernel 2 * kernel 2 *
            density (agent_grid_cell t G a0).1 (agent_grid_cell t G a0).2 := by positivity
        _ ≤ _ := gaussian_filter_center_le G kernel density hker hd_nonneg _ _ hi0 hj0
    have hmax_pos : 0 < max_val := by
      rw [hmaxval]
      exact hs_pos.trans_le (le_grid_max G smoothed _ _ hi0 hj0)
    have hgrid : agents_to_grid t kernel agents G = fun i j => smoothed i j / max_val := by
      unfold agents_to_grid
      have hlen : ¬ ((agents.filter fun a => a.is_active).length = 0) := by
        rw [List.length_eq_zero]
        exact hne
      rw [if_neg hlen, if_pos hmax_pos]
    refine ⟨?_, ?_, ?_⟩
    · intro i hi j hj
      rw [hgrid]
      constructor
      · exact div_nonneg (hs_nonneg i j) hmax_pos.le
      · show smoothed i j / max_val ≤ 1
        rw [div_le_one hmax_pos, hmaxval]
        exact le_grid_max G smoothed i j hi hj
    · intro hcontra
      exact absurd hcontra hne
    · intro _
      rw [hgrid]
      apply le_antisymm
      · apply grid_max_le G _ 1 zero_le_one
        intro i hi j hj
        show smoothed i j / max_val ≤ 1
        rw [div_le_one hmax_pos, hmaxval]
        exact le_grid_max G smoothed i j hi hj
      · rcases grid_max_attained G smoothed with h0 | ⟨im, him, jm, hjm, hattain⟩
        · have hmp := hmax_pos
          rw [hmaxval, h0] at hmp
          exact absurd hmp (lt_irrefl 0)
        · have hpos2 : 0 < smoothed im jm := by
            have hmp := hmax_pos
            rw [hmaxval, hattain] at hmp
            exact hmp
          have hone : smoothed im jm / max_val = 1 := by
            rw [hmaxval, hattain]
            exact div_self hpos2.ne'
          calc (1 : ℚ) = smoothed im jm / max_val := hone.symm
            _ ≤ _ := le_grid_max G _ im jm him hjm

/-- Closed witness for `C7_grid_values`: the unit terrain, a 2×2 output
grid, the all-ones kernel, and one active agent. -/
theorem C7_grid_values_witness :
    (∀ i < 2, ∀ j < 2, 0 ≤ agents_to_grid unitTerrain (fun _ => 1) [agent0] 2 i j ∧
      agents_to_grid unitTerrain (fun _ => 1) [agent0] 2 i j ≤ 1) ∧
    (([agent0].filter fun a => a.is_active) = [] →
      grid_max 2 (agents_to_grid unitTerrain (fun _ => 1) [agent0] 2) = 0) ∧
    (([agent0].filter fun a => a.is_active) ≠ [] →
      grid_max 2 (agents_to_grid unitTerrain (fun _ => 1) [agent0] 2) = 1) :=
  C7_grid_values unitTerrain (fun _ => 1) [agent0] 2 le_rfl (fun _ => zero_le_one) one_pos

/-- Closed witness for `C9_center_average`: cell (0,0) of
`cornerTerrain`, whose centre interpolates to `(0+0+0+4)/4`. -/
theorem C9_center_average_witness :
    cornerTerrain.elevation
        (cornerTerrain.north - (((0 : ℕ) : ℚ) + 1/2) * cornerTerrain.lat_per_row)
        (cornerTerrain.west + (((0 : ℕ) : ℚ) + 1/2) * cornerTerrain.lon_per_col)
      = some ((cornerTerrain.elevation_grid 0 0
             + cornerTerrain.elevation_grid 0 (min (0 + 1) (cornerTerrain.cols - 1))
             + cornerTerrain.elevation_grid (min (0 + 1) (cornerTerrain.rows - 1)) 0
             + cornerTerrain.elevation_grid (min (0 + 1) (cornerTerrain.rows - 1))
                 (min (0 + 1) (cornerTerrain.cols - 1))) / 4) :=
  C9_center_average cornerTerrain 0 0 (by norm_num [cornerTerrain]) (by norm_num [cornerTerrain])
    (by norm_num [cornerTerrain]) (by norm_num [cornerTerrain])

/-! ## Simulation driver timing (`SARSimulator.run_simulation`) -/

/-- Embeds the elapsed-time computation of `run_simulation`
(simulator.py lines 539-546): naive timestamps in seconds, minutes by
`int()` truncation, 0 when either timestamp is absent. -/
def elapsed_minutes (time_last_seen current_time : Option ℤ) : ℤ :=
  match time_last_seen, current_time with
  | some tls, some ct => pyInt (((ct - tls : ℤ) : ℚ) / 60)
  | _, _ => 0

/-- Embeds `num_steps` (simulator.py lines 548-551) with the default
`timestep_minutes = 15`: total minutes capped at 480, then Python's
floor division. -/
def num_steps (time_last_seen current_time : Option ℤ) : ℤ :=
  let total_minutes := min (elapsed_minutes time_last_seen current_time + 8 * 60) 480
  Int.fdiv total_minutes 15

/-- The `time_offset_minutes` of the emitted slices (simulator.py lines
571-594): one slice per step of `range(num_steps)`, at `step * 15`. -/
def slice_offsets (time_last_seen current_time : Option ℤ) : List ℤ :=
  (List.range (num_steps time_last_seen current_time).toNat).map fun step : ℕ => (step : ℤ) * 15

/-- Claim C4, counterexample: with `current_time` one hour before
`time_last_seen` (timestamps in seconds: last seen 3600, current 0) the
code computes `elapsed_minutes = -60` — there is no `max(0, ·)` — so
`total = min(-60 + 480, 480) = 420` and only 28 slices are produced,
while the claim's `max(0, elapsed)` formula yields `480/15 = 32`. -/
theorem C4_counterexample :
    elapsed_minutes (some 3600) (some 0) = -60 ∧
    (slice_offsets (some 3600) (some 0)).length = 28 ∧
    Int.fdiv (min (max 0 (-60 : ℤ) + 8 * 60) 480) 15 = 32 := by
  have h1 : elapsed_minutes (some 3600) (some 0) = -60 := by
    unfold elapsed_minutes pyInt
    norm_num [Int.ceil_eq_iff]
  have h2 : num_steps (some 3600) (some 0) = 28 := by
    unfold num_steps
    rw [h1]
    have hmin : min ((-60 : ℤ) + 8 * 60) 480 = 420 := by
      rw [min_def]
      norm_num
    rw [hmin]
    decide
  refine ⟨h1, ?_, ?_⟩
  · unfold slice_offsets
    rw [h2]
    simp
  · have hmin : min (max 0 (-60 : ℤ) + 8 * 60) 480 = 480 := by
      rw [max_def, min_def]
      norm_num
    rw [hmin]
    decide

/-- Claim C4 (amended): `elapsed_min` is the truncated minute count of
`current_time − time_last_seen` — negative when current precedes last
seen, with no flooring at 0 — and 0 when either timestamp is absent;
`total_min = min(elapsed_min + 480, 480)`; the result holds
`max(num_steps, 0)` slices with `time_slices[k].time_offset_minutes =
15·k`. -/
theorem C4_time_slices (tls ct : Option ℤ) :
    (slice_offsets tls ct).length
      = (Int.fdiv (min (elapsed_minutes tls ct + 8 * 60) 480) 15).toNat ∧
    ∀ k, k < (slice_offsets tls ct).length →
      (slice_offsets tls ct).getD k 0 = 15 * k := by
  constructor
  · unfold slice_offsets num_steps
    simp
  · intro k hk
    unfold slice_offsets at hk ⊢
    rw [List.getD_eq_getElem _ _ hk]
    simp only [List.getElem_map, List.getElem_range]
    ring

/-- Closed witness for `C4_time_slices`: both timestamps present and
equal, 32 slices, slice 0 at offset 0. -/
theorem C4_time_slices_witness :
    0 < (slice_offsets (some 0) (some 0)).length ∧
    (slice_offsets (some 0) (some 0)).getD 0 0 = 15 * 0 := by
  have hlen : (slice_offsets (some 0) (some 0)).length = 32 := by
    have h1 : elapsed_minutes (some 0) (some 0) = 0 := by
      unfold elapsed_minutes pyInt
      norm_num
    have h2 : num_steps (some 0) (some 0) = 32 := by
      unfold num_steps
      rw [h1]
      have hmin : min ((0 : ℤ) + 8 * 60) 480 = 480 := by
        rw [min_def]
        norm_num
      rw [hmin]
      decide
    unfold slice_offsets
    rw [h2]
    simp
  constructor
  · rw [hlen]
    norm_num
  · exact (C4_time_slices (some 0) (some 0)).2 0 (by rw [hlen]; norm_num)

end SAR
